import Mathlib

/-!
Shallow embedding of the metric-aggregation and rule-based-scoring core of the
revenue-automation portfolio repository.

The embedded fragments are:
* the lead-scoring decision block and the priority rendering thresholds of
  `src/lead_intelligence_demo.py` (lines 127-135 and 154-159), together with
  the `demo_leads` fixture (lines 55-60);
* the metric aggregators of `src/revenue_dashboard.py`: `total_pipeline`
  (line 112), `avg_deal` (line 116), `stage_summary` (line 137) and the
  `Growth_Rate` column (lines 196-198), together with the `pipeline_data`,
  `health_data` and `revenue_data` fixtures (lines 75-97).

The integer-valued columns of the fixtures (amounts, MRR, scores) are Python
ints / pandas int64 and are modelled as ℤ (scores as ℕ); the float results
that pandas produces (`mean`, `pct_change`) are modelled as exact rationals
(ℚ).  The pandas NaN that `mean` and `pct_change` produce on missing input is
modelled explicitly (`AggResult.nanValue`, `Option.none`), never conflated
with a raised exception.
-/

namespace RevAuto

/-- Python's `needle in haystack` substring containment on character lists:
true iff `p` occurs contiguously inside the second list. -/
def containsSub : List Char → List Char → Bool
  | p, [] => p.isEmpty
  | p, c :: cs => p.isPrefixOf (c :: cs) || containsSub p cs

/-- The free-mail test of the scoring block, exactly as the source writes it:
`"@gmail.com" in demo_email or "@yahoo.com" in demo_email`
(substring containment on the whole email string). -/
def isFreeMail (email : String) : Bool :=
  containsSub "@gmail.com".toList email.toList ||
  containsSub "@yahoo.com".toList email.toList

/-- The scoring block of the Analyze Lead button
(`src/lead_intelligence_demo.py` lines 127-135): returns the score and the
insight string.  The second branch embeds Python's
`demo_company and len(demo_company) > 5` (truthiness of a string is
non-emptiness). -/
def analyzeLead (demo_email demo_company : String) : ℕ × String :=
  if isFreeMail demo_email then
    (30, "Personal email domain suggests lower business intent")
  else if demo_company ≠ "" ∧ demo_company.length > 5 then
    (85, "Professional company email and established business")
  else
    (50, "Moderate potential, needs further qualification")

/-- The priority rendering block (`src/lead_intelligence_demo.py` lines
154-159): score ≥ 80 renders "High Priority", score ≥ 60 renders
"Medium Priority", anything else renders "Low Priority".  Only the label is
modelled. -/
def priorityLabel (score : ℕ) : String :=
  if score ≥ 80 then "High" else if score ≥ 60 then "Medium" else "Low"

/-- The domain of an email address: the characters after the last `@`.
Used to state claims that contrast domain membership with the substring
check the code actually performs. -/
def emailDomain (email : String) : String :=
  String.mk ((email.toList.reverse.takeWhile (fun c => c != '@')).reverse)

/-- One record of the `demo_leads` fixture
(`src/lead_intelligence_demo.py` lines 55-60). -/
structure DemoLead where
  name : String
  email : String
  company : String
  manual_score : String
  ai_score : ℕ
  insights : String
  time_saved : String
deriving DecidableEq

/-- The static `demo_leads` fixture, verbatim from
`src/lead_intelligence_demo.py` lines 55-60. -/
def demo_leads : List DemoLead :=
  [ ⟨"John Smith", "john@techcorp.com", "TechCorp", "Unknown", 85,
      "High-value prospect from tech company", "8 minutes"⟩,
    ⟨"Jane Doe", "jane@gmail.com", "", "Unknown", 25,
      "Personal email, no company info", "5 minutes"⟩,
    ⟨"Mike Johnson", "mike@enterprise-solutions.com", "Enterprise Solutions Inc",
      "Unknown", 92, "Enterprise company, decision maker likely", "12 minutes"⟩,
    ⟨"Sarah Wilson", "sarah@startup.io", "InnovateStartup", "Unknown", 70,
      "Startup, good potential but limited budget", "6 minutes"⟩ ]

/-- One row of the pipeline table of `src/revenue_dashboard.py`
(lines 75-81).  `stage` stays a string, as in the source. -/
structure PipelineDeal where
  company : String
  amount : ℤ
  stage : String
  rep : String
  close_date : String
deriving DecidableEq

/-- The `pipeline_data` fixture, verbatim from `src/revenue_dashboard.py`
lines 75-81 (columns transposed into records). -/
def pipeline_data : List PipelineDeal :=
  [ ⟨"Acme Corp", 25000, "Demo", "John", "2024-02-15"⟩,
    ⟨"TechFlow", 45000, "Proposal", "Sarah", "2024-02-20"⟩,
    ⟨"DataViz Inc", 15000, "Negotiation", "Mike", "2024-02-10"⟩,
    ⟨"CloudSys", 35000, "Demo", "John", "2024-02-25"⟩,
    ⟨"InnovateCo", 60000, "Closed Won", "Sarah", "2024-01-30"⟩,
    ⟨"ScaleTech", 20000, "Qualified", "Mike", "2024-02-18"⟩ ]

/-- One row of the customer-health table of `src/revenue_dashboard.py`
(lines 84-89). -/
structure CustomerHealth where
  customer : String
  mrr : ℤ
  health_score : ℕ
  risk_level : String
deriving DecidableEq

/-- The `health_data` fixture, verbatim from `src/revenue_dashboard.py`
lines 84-89. -/
def health_data : List CustomerHealth :=
  [ ⟨"Acme Corp", 2500, 85, "Low"⟩,
    ⟨"TechFlow", 4200, 72, "Medium"⟩,
    ⟨"DataViz Inc", 1800, 45, "High"⟩,
    ⟨"CloudSys", 3200, 90, "Low"⟩,
    ⟨"InnovateCo", 5500, 88, "Low"⟩ ]

/-- One row of the revenue table of `src/revenue_dashboard.py`
(lines 92-97). -/
structure RevenueMonth where
  month : String
  new_mrr : ℤ
  churn_mrr : ℤ
  net_mrr : ℤ
deriving DecidableEq

/-- The `revenue_data` fixture, verbatim from `src/revenue_dashboard.py`
lines 92-97. -/
def revenue_data : List RevenueMonth :=
  [ ⟨"2023-10", 12000, 2000, 10000⟩,
    ⟨"2023-11", 15000, 2500, 12500⟩,
    ⟨"2023-12", 18000, 3000, 15000⟩,
    ⟨"2024-01", 15000, 2000, 13000⟩,
    ⟨"2024-02", 22000, 1500, 20500⟩ ]

/-- `pipeline_df['Amount'].sum()` (`src/revenue_dashboard.py` line 112):
a running left-to-right sum of the Amount column starting from 0. -/
def total_pipeline (deals : List PipelineDeal) : ℤ :=
  deals.foldl (fun acc d => acc + d.amount) 0

/-- Result of a pandas column aggregation, with the silent NaN of an empty
column and a raised exception kept distinct. -/
inductive AggResult where
  | nanValue : AggResult
  | value : ℚ → AggResult
  | raised : String → AggResult
deriving DecidableEq

/-- `pipeline_df['Amount'].mean()` (`src/revenue_dashboard.py` line 116):
pandas returns the silent NaN on an empty column, and sum/count otherwise.
No exception is ever raised. -/
def avg_deal (deals : List PipelineDeal) : AggResult :=
  if deals.length = 0 then AggResult.nanValue
  else AggResult.value ((((deals.map (fun d => d.amount)).sum : ℤ) : ℚ) / (deals.length : ℚ))

/-- Sum of the Amount column over the deals of one stage. -/
def stage_sum (deals : List PipelineDeal) (s : String) : ℤ :=
  ((deals.filter (fun d => d.stage == s)).map (fun d => d.amount)).sum

/-- `pipeline_df.groupby('Stage')['Amount'].sum()`
(`src/revenue_dashboard.py` line 137): one (stage, sum) pair per stage that
occurs in the input; stages with no deals do not appear. -/
def stage_summary (deals : List PipelineDeal) : List (String × ℤ) :=
  ((deals.map (fun d => d.stage)).dedup).map (fun s => (s, stage_sum deals s))

/-- Helper for `pct_change`: `prev` is the element preceding the head of the
remaining list. -/
def pctChangeAux : ℚ → List ℚ → List (Option ℚ)
  | _, [] => []
  | prev, y :: ys => some ((y - prev) / prev) :: pctChangeAux y ys

/-- pandas `Series.pct_change()`: NaN (modelled `none`) at index 0, and
`(x[i] - x[i-1]) / x[i-1]` at every later index. -/
def pct_change : List ℚ → List (Option ℚ)
  | [] => []
  | x :: xs => none :: pctChangeAux x xs

/-- `revenue_df['Net_MRR'].pct_change() * 100`
(`src/revenue_dashboard.py` lines 196-197): the Growth_Rate column before
its string formatting. -/
def Growth_Rate (revenue : List RevenueMonth) : List (Option ℚ) :=
  (pct_change (revenue.map (fun r => (r.net_mrr : ℚ)))).map (Option.map (fun g => g * 100))

/-- Modelled from the spec: the repository never implements a
`classifyHealth` function — `src/revenue_dashboard.py` only ships the
hardcoded `Risk_Level` column of the `health_data` fixture.  This definition
follows the spec's threshold table (§4.3): healthScore ≥ 75 → Low;
50–74 → Medium; < 50 → High. -/
def classifyHealth (healthScore : ℕ) : String :=
  if healthScore ≥ 75 then "Low"
  else if healthScore ≥ 50 then "Medium"
  else "High"

/-- A left fold adding amounts equals the starting accumulator plus the sum
of the Amount column. -/
theorem foldl_add_amount (deals : List PipelineDeal) :
    ∀ a : ℤ, deals.foldl (fun acc d => acc + d.amount) a
      = a + (deals.map (fun d => d.amount)).sum := by
  induction deals with
  | nil => intro a; simp
  | cons d l ih => intro a; simp only [List.foldl_cons, List.map_cons, List.sum_cons, ih]; ring

/-- `total_pipeline` computes the sum of the Amount column. -/
theorem total_pipeline_eq_sum (deals : List PipelineDeal) :
    total_pipeline deals = (deals.map (fun d => d.amount)).sum := by
  unfold total_pipeline
  rw [foldl_add_amount]
  ring

/-- Splitting a sum of amounts along a Boolean predicate. -/
theorem sum_amount_filter_partition (p : PipelineDeal → Bool) (l : List PipelineDeal) :
    (((l.filter p).map (fun d => d.amount)).sum : ℤ)
      + ((l.filter (fun d => !p d)).map (fun d => d.amount)).sum
      = (l.map (fun d => d.amount)).sum := by
  induction l with
  | nil => simp
  | cons d l ih =>
    by_cases h : p d
    · simp [List.filter_cons, h, ← ih]
      ring
    · simp [List.filter_cons, h, ← ih]
      ring

/-- Summing the per-stage sums over any duplicate-free list of keys that
covers every stage of the input gives the total of the Amount column. -/
theorem sum_stage_sums :
    ∀ K : List String, K.Nodup →
      ∀ l : List PipelineDeal, (∀ d ∈ l, d.stage ∈ K) →
        ((K.map (fun s => stage_sum l s)).sum : ℤ) = (l.map (fun d => d.amount)).sum := by
  intro K
  induction K with
  | nil =>
    intro _ l hl
    have hnil : l = [] :=
      List.eq_nil_iff_forall_not_mem.mpr (fun d hd => (List.not_mem_nil d.stage) (hl d hd))
    subst hnil
    simp
  | cons s K ih =>
    intro hK l hl
    rw [List.nodup_cons] at hK
    obtain ⟨hs, hK'⟩ := hK
    have hfil : ∀ s' : String, s' ≠ s →
        l.filter (fun d => d.stage == s')
          = (l.filter (fun d => !(d.stage == s))).filter (fun d => d.stage == s') := by
      intro s' hne
      rw [List.filter_filter]
      refine List.filter_congr ?_
      intro d _
      by_cases hds : d.stage = s'
      · have hb : (d.stage == s') = true := by simp [hds]
        have hq : (d.stage == s) = false := by simp [hds, hne]
        simp [hb, hq]
      · have hb : (d.stage == s') = false := by simp [hds]
        simp [hb]
    have hsum2 : (K.map (fun s' => stage_sum l s')).sum
        = (K.map (fun s' => stage_sum (l.filter (fun d => !(d.stage == s))) s')).sum := by
      congr 1
      refine List.map_congr_left ?_
      intro s' hs'
      have hne : s' ≠ s := fun he => hs (he ▸ hs')
      unfold stage_sum
      rw [hfil s' hne]
    have hcov : ∀ d ∈ l.filter (fun d => !(d.stage == s)), d.stage ∈ K := by
      intro d hd
      rw [List.mem_filter] at hd
      obtain ⟨hdl, hds⟩ := hd
      have hmem := hl d hdl
      rcases List.mem_cons.mp hmem with he | he
      · exfalso
        simp [he] at hds
      · exact he
    have hIH := ih hK' (l.filter (fun d => !(d.stage == s))) hcov
    have hpart := sum_amount_filter_partition (fun d => d.stage == s) l
    calc ((s :: K).map (fun s' => stage_sum l s')).sum
        = stage_sum l s + (K.map (fun s' => stage_sum l s')).sum := by simp
      _ = stage_sum l s
            + ((l.filter (fun d => !(d.stage == s))).map (fun d => d.amount)).sum := by
          rw [hsum2, hIH]
      _ = (l.map (fun d => d.amount)).sum := hpart

/-- `pctChangeAux` preserves length. -/
theorem pctChangeAux_length (prev : ℚ) (xs : List ℚ) :
    (pctChangeAux prev xs).length = xs.length := by
  induction xs generalizing prev with
  | nil => rfl
  | cons y ys ih => simp [pctChangeAux, ih]

/-- `pct_change` preserves length. -/
theorem pct_change_length (l : List ℚ) : (pct_change l).length = l.length := by
  cases l with
  | nil => rfl
  | cons x xs => simp [pct_change, pctChangeAux_length]

/-- Entry `i` of `pctChangeAux prev xs` is the relative change from the
element before `xs[i]` (which is `prev` when `i = 0`) to `xs[i]`. -/
theorem pctChangeAux_getElem? (prev : ℚ) (xs : List ℚ) (i : ℕ) (c p : ℚ)
    (hc : xs[i]? = some c) (hp : (prev :: xs)[i]? = some p) :
    (pctChangeAux prev xs)[i]? = some (some ((c - p) / p)) := by
  induction xs generalizing prev i with
  | nil => simp at hc
  | cons y ys ih =>
    cases i with
    | zero =>
      simp only [List.getElem?_cons_zero, Option.some.injEq] at hc hp
      subst hc
      subst hp
      simp [pctChangeAux]
    | succ j =>
      rw [List.getElem?_cons_succ] at hc hp
      show (some ((y - prev) / prev) :: pctChangeAux y ys)[j + 1]? = _
      rw [List.getElem?_cons_succ]
      exact ih y j hc hp

/-- C1 (counterexample): the free-mail set of the scoring block does not
contain hotmail.com.  The lead with email "bob@hotmail.com" (domain
hotmail.com, a free-mail provider named by the claim) and empty company is
scored 50, not 30. -/
theorem freemail_set_counterexample :
    emailDomain "bob@hotmail.com" = "hotmail.com" ∧
    (analyzeLead "bob@hotmail.com" "").1 = 50 ∧ (50 : ℕ) ≠ 30 := by
  decide

/-- C1 (amended): the scoring block evaluates its decision table in fixed
priority order with first match wins, but the first rule tests substring
containment of "@gmail.com" or "@yahoo.com" only (the `isFreeMail` test):
a hit scores 30 with the personal-email insight; otherwise a non-empty
company longer than 5 characters scores 85; otherwise the score is 50. -/
theorem analyzeLead_decision_table (email company : String) :
    (isFreeMail email = true →
      analyzeLead email company
        = (30, "Personal email domain suggests lower business intent")) ∧
    (isFreeMail email = false → company ≠ "" → company.length > 5 →
      analyzeLead email company
        = (85, "Professional company email and established business")) ∧
    (isFreeMail email = false → ¬(company ≠ "" ∧ company.length > 5) →
      analyzeLead email company
        = (50, "Moderate potential, needs further qualification")) := by
  refine ⟨?_, ?_, ?_⟩
  · intro h
    simp [analyzeLead, h]
  · intro h h1 h2
    simp [analyzeLead, h, h1, h2]
  · intro h h'
    simp only [analyzeLead, h, Bool.false_eq_true, if_false]
    rw [if_neg h']

/-- C1 (witness): each rule of the amended decision table fires on a
concrete lead. -/
theorem analyzeLead_decision_table_witness :
    analyzeLead "jane@gmail.com" "TechCorp Solutions"
      = (30, "Personal email domain suggests lower business intent") ∧
    analyzeLead "john@techcorp.com" "TechCorp Solutions"
      = (85, "Professional company email and established business") ∧
    analyzeLead "john@techcorp.com" ""
      = (50, "Moderate potential, needs further qualification") :=
  ⟨(analyzeLead_decision_table "jane@gmail.com" "TechCorp Solutions").1 (by decide),
   (analyzeLead_decision_table "john@techcorp.com" "TechCorp Solutions").2.1
     (by decide) (by decide) (by decide),
   (analyzeLead_decision_table "john@techcorp.com" "").2.2 (by decide) (by decide)⟩

/-- C2 (counterexample): on the empty deal list `avg_deal` silently returns
the pandas NaN, it does not raise an EmptyInputError. -/
theorem avg_deal_empty_counterexample :
    avg_deal [] = AggResult.nanValue ∧
    AggResult.nanValue ≠ AggResult.raised "EmptyInputError" := by
  decide

/-- C2 (amended): for every empty sequence of deals `avg_deal` silently
returns NaN (the pandas mean of an empty column), never an error. -/
theorem avg_deal_empty_is_nan (deals : List PipelineDeal) (h : deals = []) :
    avg_deal deals = AggResult.nanValue := by
  subst h
  rfl

/-- C2 (witness): the amended behaviour at the concrete empty list. -/
theorem avg_deal_empty_is_nan_witness : avg_deal [] = AggResult.nanValue :=
  avg_deal_empty_is_nan [] rfl

/-- C3: the priority rendering buckets scores in [80,100] to High, scores in
[60,80) to Medium and every other score in [0,100] to Low; the jane@gmail.com
lead with empty company scores 30 and renders Low, the
mike@enterprise-solutions.com lead with company "Enterprise Solutions Inc"
scores 85 and renders High. -/
theorem priority_buckets :
    (∀ s : ℕ, 80 ≤ s → s ≤ 100 → priorityLabel s = "High") ∧
    (∀ s : ℕ, 60 ≤ s → s < 80 → priorityLabel s = "Medium") ∧
    (∀ s : ℕ, s ≤ 100 → s < 60 → priorityLabel s = "Low") ∧
    ((analyzeLead "jane@gmail.com" "").1 = 30 ∧
      priorityLabel (analyzeLead "jane@gmail.com" "").1 = "Low") ∧
    ((analyzeLead "mike@enterprise-solutions.com" "Enterprise Solutions Inc").1 = 85 ∧
      priorityLabel (analyzeLead "mike@enterprise-solutions.com" "Enterprise Solutions Inc").1
        = "High") := by
  refine ⟨?_, ?_, ?_, by decide, by decide⟩
  · intro s h1 _
    unfold priorityLabel
    rw [if_pos h1]
  · intro s h1 h2
    unfold priorityLabel
    rw [if_neg (by omega), if_pos h1]
  · intro s _ h2
    unfold priorityLabel
    rw [if_neg (by omega), if_neg (by omega)]

/-- C3 (witness): the bucket boundaries at concrete scores. -/
theorem priority_buckets_witness :
    priorityLabel 85 = "High" ∧ priorityLabel 70 = "Medium" ∧ priorityLabel 30 = "Low" :=
  ⟨priority_buckets.1 85 (by decide) (by decide),
   priority_buckets.2.1 70 (by decide) (by decide),
   priority_buckets.2.2.1 30 (by decide) (by decide)⟩

/-- C4: on every non-empty revenue sequence the Growth_Rate column has NaN
(`none`) at index 0 and, at every later index, exactly
(netMrr[i] − netMrr[i−1]) / netMrr[i−1] × 100 (values are exact rationals, so
the formula holds with zero floating-point error, within any tolerance). -/
theorem growth_rate_spec (revenue : List RevenueMonth) (h : revenue ≠ []) :
    (Growth_Rate revenue)[0]? = some none ∧
    (Growth_Rate revenue).length = revenue.length ∧
    ∀ i cur prev, revenue[i + 1]? = some cur → revenue[i]? = some prev →
      (Growth_Rate revenue)[i + 1]?
        = some (some (((cur.net_mrr : ℚ) - (prev.net_mrr : ℚ)) / (prev.net_mrr : ℚ) * 100)) := by
  refine ⟨?_, ?_, ?_⟩
  · obtain ⟨r, rs, rfl⟩ := List.exists_cons_of_ne_nil h
    simp [Growth_Rate, pct_change]
  · simp [Growth_Rate, pct_change_length]
  · intro i cur prev hc hp
    cases revenue with
    | nil => simp at hc
    | cons r rs =>
      rw [List.getElem?_cons_succ] at hc
      have hc' : (rs.map (fun x => (x.net_mrr : ℚ)))[i]? = some ((cur.net_mrr : ℚ)) := by
        rw [List.getElem?_map, hc]
        rfl
      have hp' : (((r.net_mrr : ℚ)) :: rs.map (fun x => (x.net_mrr : ℚ)))[i]?
          = some ((prev.net_mrr : ℚ)) := by
        show ((r :: rs).map (fun x => (x.net_mrr : ℚ)))[i]? = _
        rw [List.getElem?_map, hp]
        rfl
      have key := pctChangeAux_getElem? ((r.net_mrr : ℚ)) (rs.map (fun x => (x.net_mrr : ℚ)))
        i ((cur.net_mrr : ℚ)) ((prev.net_mrr : ℚ)) hc' hp'
      show ((pct_change ((r :: rs).map (fun x => (x.net_mrr : ℚ)))).map
        (Option.map (fun g => g * 100)))[i + 1]? = _
      rw [List.map_cons]
      show ((none :: pctChangeAux ((r.net_mrr : ℚ)) (rs.map (fun x => (x.net_mrr : ℚ)))).map
        (Option.map (fun g => g * 100)))[i + 1]? = _
      rw [List.map_cons, List.getElem?_cons_succ, List.getElem?_map, key]
      rfl

/-- C4 (witness): the Growth_Rate column of the revenue fixture starts with
NaN, and its second entry is the exact relative growth of the first two
Net_MRR values. -/
theorem growth_rate_spec_witness :
    (Growth_Rate revenue_data)[0]? = some none ∧
    (Growth_Rate revenue_data)[0 + 1]?
      = some (some ((((12500 : ℤ) : ℚ) - ((10000 : ℤ) : ℚ)) / ((10000 : ℤ) : ℚ) * 100)) :=
  ⟨(growth_rate_spec revenue_data (by decide)).1,
   (growth_rate_spec revenue_data (by decide)).2.2 0
     ⟨"2023-11", 15000, 2500, 12500⟩ ⟨"2023-10", 12000, 2000, 10000⟩ (by decide) (by decide)⟩

/-- C5: the keys of the per-stage grouping are a subset of the stages present
in the input (absent stages are omitted), each key maps to the sum of Amount
over the deals of that stage, and the values of all groups sum to the total
pipeline value. -/
theorem stage_summary_spec (deals : List PipelineDeal) :
    ((stage_summary deals).map Prod.fst) ⊆ deals.map (fun d => d.stage) ∧
    (∀ q ∈ stage_summary deals,
      q.2 = ((deals.filter (fun d => d.stage == q.1)).map (fun d => d.amount)).sum) ∧
    ((stage_summary deals).map Prod.snd).sum = total_pipeline deals := by
  refine ⟨?_, ?_, ?_⟩
  · have hkeys : (stage_summary deals).map Prod.fst = ((deals.map (fun d => d.stage)).dedup) := by
      rw [stage_summary, List.map_map]
      exact List.map_id _
    rw [hkeys]
    exact List.dedup_subset _
  · intro q hq
    rw [stage_summary] at hq
    rw [List.mem_map] at hq
    obtain ⟨s, _, rfl⟩ := hq
    rfl
  · have hvals : (stage_summary deals).map Prod.snd
        = ((deals.map (fun d => d.stage)).dedup).map (fun s => stage_sum deals s) := by
      simp [stage_summary, List.map_map]
    rw [hvals, total_pipeline_eq_sum]
    exact sum_stage_sums _ (List.nodup_dedup _) deals
      (fun d hd => List.mem_dedup.mpr (List.mem_map_of_mem _ hd))

/-- C5 (witness): the grouping of the pipeline fixture contains the
("Qualified", 20000) group, and its value is the sum of the Amount column
over the Qualified deals. -/
theorem stage_summary_spec_witness :
    ("Qualified", (20000 : ℤ)) ∈ stage_summary pipeline_data ∧
    ((("Qualified", (20000 : ℤ))).2
      = ((pipeline_data.filter (fun d => d.stage == (("Qualified", (20000 : ℤ))).1)).map
          (fun d => d.amount)).sum) :=
  ⟨by decide, (stage_summary_spec pipeline_data).2.1 ("Qualified", (20000 : ℤ)) (by decide)⟩

/-- C6: for every non-empty deal list, the pipeline-value metric is the sum
of the Amount column. -/
theorem total_pipeline_spec (deals : List PipelineDeal) (_h : deals ≠ []) :
    total_pipeline deals = (deals.map (fun d => d.amount)).sum :=
  total_pipeline_eq_sum deals

/-- C6 (witness): the pipeline-value metric at the pipeline fixture. -/
theorem total_pipeline_spec_witness :
    pipeline_data ≠ [] ∧
    total_pipeline pipeline_data = (pipeline_data.map (fun d => d.amount)).sum :=
  ⟨by decide, total_pipeline_spec pipeline_data (by decide)⟩

/-- C7: the spec-modelled `classifyHealth` maps scores ≥ 75 to Low, scores in
[50,74] to Medium and scores < 50 to High; classifyHealth 45 = High and
classifyHealth 85 = Low; and every row of the health fixture carries exactly
the risk level these thresholds derive from its health score. -/
theorem classifyHealth_spec :
    (∀ s : ℕ, 75 ≤ s → classifyHealth s = "Low") ∧
    (∀ s : ℕ, 50 ≤ s → s ≤ 74 → classifyHealth s = "Medium") ∧
    (∀ s : ℕ, s < 50 → classifyHealth s = "High") ∧
    classifyHealth 45 = "High" ∧ classifyHealth 85 = "Low" ∧
    (∀ c ∈ health_data, c.risk_level = classifyHealth c.health_score) := by
  refine ⟨?_, ?_, ?_, by decide, by decide, by decide⟩
  · intro s h1
    unfold classifyHealth
    rw [if_pos h1]
  · intro s h1 h2
    unfold classifyHealth
    rw [if_neg (by omega), if_pos h1]
  · intro s h1
    unfold classifyHealth
    rw [if_neg (by omega), if_neg (by omega)]

/-- C7 (witness): the thresholds at concrete scores and the first fixture
row. -/
theorem classifyHealth_spec_witness :
    classifyHealth 90 = "Low" ∧ classifyHealth 60 = "Medium" ∧ classifyHealth 10 = "High" ∧
    (⟨"Acme Corp", 2500, 85, "Low"⟩ : CustomerHealth).risk_level
      = classifyHealth (⟨"Acme Corp", 2500, 85, "Low"⟩ : CustomerHealth).health_score :=
  ⟨classifyHealth_spec.1 90 (by decide),
   classifyHealth_spec.2.1 60 (by decide) (by decide),
   classifyHealth_spec.2.2.1 10 (by decide),
   classifyHealth_spec.2.2.2.2.2 ⟨"Acme Corp", 2500, 85, "Low"⟩ (by decide)⟩

/-- C8: every row of the revenue fixture satisfies the invariant
Net_MRR = New_MRR − Churn_MRR. -/
theorem revenue_netmrr_invariant :
    ∀ r ∈ revenue_data, r.net_mrr = r.new_mrr - r.churn_mrr := by
  decide

/-- C8 (witness): the invariant at the first fixture row. -/
theorem revenue_netmrr_invariant_witness :
    (⟨"2023-10", 12000, 2000, 10000⟩ : RevenueMonth).net_mrr
      = (⟨"2023-10", 12000, 2000, 10000⟩ : RevenueMonth).new_mrr
        - (⟨"2023-10", 12000, 2000, 10000⟩ : RevenueMonth).churn_mrr :=
  revenue_netmrr_invariant ⟨"2023-10", 12000, 2000, 10000⟩ (by decide)

/-- C9: the free-mail test is substring containment on the whole email, not a
domain check: the email "alice@gmail.com.example.org" has domain
gmail.com.example.org (neither gmail.com nor yahoo.com), yet with a long
non-empty company the scoring block still assigns 30. -/
theorem freemail_substring_not_domain :
    emailDomain "alice@gmail.com.example.org" ≠ "gmail.com" ∧
    emailDomain "alice@gmail.com.example.org" ≠ "yahoo.com" ∧
    (analyzeLead "alice@gmail.com.example.org" "Enterprise Solutions Inc").1 = 30 := by
  decide

/-- C10: the stored ai_score values of the demo_leads fixture are not
produced by the live scoring block: the Jane Doe record stores ai_score 25,
while the scoring block assigns 30 to the same email and company. -/
theorem demo_leads_not_live_scored :
    demo_leads[1]? = some ⟨"Jane Doe", "jane@gmail.com", "", "Unknown", 25,
      "Personal email, no company info", "5 minutes"⟩ ∧
    (analyzeLead "jane@gmail.com" "").1 = 30 ∧ (25 : ℕ) ≠ 30 := by
  decide

end RevAuto
